import Mathlib

/-!
Verification of the shuttle-trip planning core of src/src/shuttle_routing.py.

Shallow embedding notes:
* Python `datetime` values are modelled at minute granularity as a count of
  minutes since a fixed Monday 00:00 epoch (an integer, so dates before the
  epoch also make sense).  `weekday()` (Monday = 0), `hour` and `minute` are
  derived arithmetically, exactly as the calendar does.
* Python floats are modelled as rationals.  The one float function whose exact
  values matter to the control flow, `haversine_miles` (trigonometry over IEEE
  doubles, lines 63-70 of the source), is kept as an explicit parameter
  `hav : ℚ → ℚ → ℚ → ℚ → ℚ` of every definition that calls it; every theorem
  below is either independent of its values or states the facts it needs about
  them (identity of indiscernibles at the concrete catalog points) as
  hypotheses, which hold for the real haversine formula.
* `round` in Python rounds half to even; `pyRound` reproduces that.
* Fallible operations (`min` over a possibly-empty sequence, `list.index`)
  return `Option`; `none` models the `ValueError` the Python code would raise.
* The two Google Directions helpers (lines 132-175) are network calls guarded
  by `if not api_key: return None`; they are modelled as injected functions
  returning `Option ℤ` minutes; "no external estimator" (api_key None) is the
  constant-`none` function.
-/

namespace ShuttleRouting

/-- Model of `datetime.time(h, m)` as stored in the service-span fields. -/
structure ClockTime where
  hour : ℕ
  minute : ℕ
deriving DecidableEq, Repr

/-- `Stop` dataclass: name, latitude, longitude (source lines 42-46). -/
structure Stop where
  name : String
  lat : ℚ
  lon : ℚ
deriving DecidableEq, Repr

/-- `RouteDefinition` dataclass (source lines 49-56). -/
structure RouteDefinition where
  name : String
  stops : List Stop
  weekday_headway_min : ℤ
  weekend_headway_min : Option ℤ
  service_span_weekday : ClockTime × ClockTime
  service_span_weekend : Option (ClockTime × ClockTime)
deriving DecidableEq, Repr

/-- A `datetime` at minute granularity: minutes since a Monday 00:00 epoch. -/
structure DateTime where
  minutes : ℤ
deriving DecidableEq, Repr

/-- Python `datetime.weekday()`: Monday = 0 .. Sunday = 6. -/
def DateTime.weekday (dt : DateTime) : ℕ :=
  ((dt.minutes / 1440) % 7).toNat

/-- The `hour` attribute, 0..23. -/
def DateTime.hour (dt : DateTime) : ℕ :=
  ((dt.minutes % 1440) / 60).toNat

/-- The `minute` attribute, 0..59. -/
def DateTime.minute (dt : DateTime) : ℕ :=
  (dt.minutes % 60).toNat

/-- `dt + timedelta(minutes=m)`. -/
def DateTime.addMinutes (dt : DateTime) (m : ℤ) : DateTime :=
  ⟨dt.minutes + m⟩

/-- Python `round`: nearest integer, ties to even (used via `int(round(x))`). -/
def pyRound (q : ℚ) : ℤ :=
  let f := ⌊q⌋
  let r := q - f
  if r < 1 / 2 then f
  else if 1 / 2 < r then f + 1
  else if f % 2 = 0 then f else f + 1

/-- `walking_minutes_heuristic` (source lines 73-75): 3 mph walking speed. -/
def walking_minutes_heuristic (miles : ℚ) : ℤ :=
  max 1 (pyRound (miles / 3 * 60))

/-- `estimate_in_vehicle_minutes` (source lines 245-248): 12 mph average. -/
def estimate_in_vehicle_minutes (route_miles : ℚ) : ℤ :=
  max 3 (pyRound (route_miles / 12 * 60))

/-- `round(x, 2)` applied to the in-route mileage (source line 355). -/
def round2 (q : ℚ) : ℚ :=
  (pyRound (q * 100) : ℚ) / 100

/-- Catalog stop (source line 84). -/
def MOREWOOD_FORBES : Stop :=
  ⟨"Morewood & Forbes (Main Campus)", 40.4449, -79.9429⟩

/-- Catalog stop (source line 85). -/
def FIFTH_AIKEN : Stop :=
  ⟨"Fifth Ave & Aiken Ave (Shadyside)", 40.4520, -79.9392⟩

/-- Catalog stop (source line 86). -/
def BAKERY_SQUARE : Stop :=
  ⟨"Bakery Square (Penn Ave)", 40.4633, -79.9214⟩

/-- Catalog stop (source line 87). -/
def PTC_TECH_DR : Stop :=
  ⟨"PTC (Technology Dr)", 40.4542, -79.9196⟩

/-- Catalog stop (source line 88). -/
def MILL_19 : Stop :=
  ⟨"Mill 19 (Hazelwood Green)", 40.4288, -79.9465⟩

/-- Catalog stop (source line 89). -/
def MURRAY_FORBES : Stop :=
  ⟨"Forbes Ave & Murray Ave (Squirrel Hill)", 40.4347, -79.9234⟩

/-- The static route catalog `ROUTES` (source lines 92-125). -/
def ROUTES : List RouteDefinition :=
  [ { name := "A/B/AB"
      stops := [MOREWOOD_FORBES, FIFTH_AIKEN]
      weekday_headway_min := 10
      weekend_headway_min := some 15
      service_span_weekday := (⟨7, 0⟩, ⟨23, 30⟩)
      service_span_weekend := some (⟨10, 0⟩, ⟨23, 30⟩) },
    { name := "C Route"
      stops := [MOREWOOD_FORBES, MURRAY_FORBES]
      weekday_headway_min := 20
      weekend_headway_min := none
      service_span_weekday := (⟨7, 0⟩, ⟨19, 30⟩)
      service_span_weekend := none },
    { name := "PTC & Mill 19"
      stops := [MOREWOOD_FORBES, PTC_TECH_DR, MILL_19]
      weekday_headway_min := 30
      weekend_headway_min := some 45
      service_span_weekday := (⟨7, 0⟩, ⟨20, 0⟩)
      service_span_weekend := some (⟨10, 0⟩, ⟨18, 0⟩) },
    { name := "Bakery Square"
      stops := [MOREWOOD_FORBES, BAKERY_SQUARE]
      weekday_headway_min := 30
      weekend_headway_min := none
      service_span_weekday := (⟨7, 0⟩, ⟨19, 30⟩)
      service_span_weekend := none } ]

/-- `is_weekend` (source lines 182-183): `dt.weekday() >= 5`. -/
def is_weekend (dt : DateTime) : Bool :=
  decide (5 ≤ dt.weekday)

/-- `minutes_since_midnight` (source lines 186-187). -/
def minutes_since_midnight (dt : DateTime) : ℕ :=
  dt.hour * 60 + dt.minute

/-- `service_is_active` (source lines 190-201). -/
def service_is_active (route : RouteDefinition) (dt : DateTime) : Bool :=
  let m := minutes_since_midnight dt
  if is_weekend dt then
    match route.service_span_weekend with
    | none => false
    | some (s, e) =>
        decide (s.hour * 60 + s.minute ≤ m ∧ m ≤ e.hour * 60 + e.minute)
  else
    let s := route.service_span_weekday.1
    let e := route.service_span_weekday.2
    decide (s.hour * 60 + s.minute ≤ m ∧ m ≤ e.hour * 60 + e.minute)

/-- `headway_minutes` (source lines 204-207). -/
def headway_minutes (route : RouteDefinition) (dt : DateTime) : Option ℤ :=
  if is_weekend dt then route.weekend_headway_min
  else some route.weekday_headway_min

/-- The concatenation of every route's stops (source lines 211-213). -/
def all_stops : List Stop :=
  ROUTES.foldl (fun acc r => acc ++ r.stops) []

/-- De-duplication by name keeping the earliest instance, as the insertion-
ordered dict of source lines 215-218 does. -/
def uniqueByName (l : List Stop) : List Stop :=
  l.foldl (fun acc s => if acc.any (fun t => t.name == s.name) then acc
                        else acc ++ [s]) []

/-- The fold Python's `min(xs, key=k)` performs on a nonempty sequence:
the first element of minimal key wins. -/
def minFold (k : Stop → ℚ) (b : Stop) (l : List Stop) : Stop :=
  l.foldl (fun best s => if k s < k best then s else best) b

/-- `find_nearest_stop` (source lines 210-221); `none` models the
`ValueError` Python's `min` raises on an empty sequence. -/
def find_nearest_stop (hav : ℚ → ℚ → ℚ → ℚ → ℚ) (lat lon : ℚ) :
    Option (Stop × ℚ) :=
  match uniqueByName all_stops with
  | [] => none
  | s0 :: rest =>
      let nearest := minFold (fun s => hav lat lon s.lat s.lon) s0 rest
      some (nearest, hav lat lon nearest.lat nearest.lon)

/-- The loop body of `find_route_connecting` over a remaining route list. -/
def find_route_connecting_aux (o d : Stop) :
    List RouteDefinition → Option RouteDefinition
  | [] => none
  | route :: rest =>
      if o.name ∈ route.stops.map (fun s => s.name) ∧
          d.name ∈ route.stops.map (fun s => s.name) then
        if (route.stops.map (fun s => s.name)).indexOf o.name ≠
            (route.stops.map (fun s => s.name)).indexOf d.name then some route
        else find_route_connecting_aux o d rest
      else find_route_connecting_aux o d rest

/-- `find_route_connecting` (source lines 224-230). -/
def find_route_connecting (o d : Stop) : Option RouteDefinition :=
  find_route_connecting_aux o d ROUTES

/-- Spec-side predicate (section 4.5 of the spec): the route's stop-name
sequence contains both stop names at different positions. -/
def route_connects (o d : Stop) (route : RouteDefinition) : Bool :=
  decide (o.name ∈ route.stops.map (fun s => s.name) ∧
          d.name ∈ route.stops.map (fun s => s.name) ∧
          (route.stops.map (fun s => s.name)).indexOf o.name ≠
            (route.stops.map (fun s => s.name)).indexOf d.name)

/-- Sum of `hav` hops between consecutive stops over index span [lo, hi). -/
def span_miles (hav : ℚ → ℚ → ℚ → ℚ → ℚ) (stops : List Stop) (lo hi : ℕ) : ℚ :=
  ((List.range (hi - lo)).map (fun k =>
    let s1 := stops.getD (lo + k) MOREWOOD_FORBES
    let s2 := stops.getD (lo + k + 1) MOREWOOD_FORBES
    hav s1.lat s1.lon s2.lat s2.lon)).sum

/-- `distance_along_route` (source lines 233-242); `none` models the
`ValueError` of `list.index` when a stop name is absent.  The `getD`
default is never reached: both indices come from `findIdx?` on the same
list. -/
def distance_along_route (hav : ℚ → ℚ → ℚ → ℚ → ℚ)
    (route : RouteDefinition) (a b : Stop) : Option ℚ :=
  let names := route.stops.map (fun s => s.name)
  match names.findIdx? (fun n => n == a.name),
        names.findIdx? (fun n => n == b.name) with
  | some ia, some ib =>
      let p := if ib < ia then (ib, ia) else (ia, ib)
      some (span_miles hav route.stops p.1 p.2)
  | _, _ => none

/-- Two-digit zero padding, as `%I` and `%M` of `strftime` produce. -/
def pad2 (n : ℕ) : List Char :=
  if n < 10 then ['0', Nat.digitChar n]
  else [Nat.digitChar (n / 10), Nat.digitChar (n % 10)]

/-- Python's `str.lstrip` with argument a single zero character. -/
def lstripZeros : List Char → List Char
  | [] => []
  | c :: rest => if c = '0' then lstripZeros rest else c :: rest

/-- The 12-hour clock hour `%I` renders, 1..12. -/
def hour12 (dt : DateTime) : ℕ :=
  if dt.hour % 12 = 0 then 12 else dt.hour % 12

/-- `%p`: AM before noon, PM from noon on. -/
def ampm (dt : DateTime) : List Char :=
  if dt.hour < 12 then ['A', 'M'] else ['P', 'M']

/-- The local `fmt` of `plan_shuttle_trip` (source lines 333-334):
`dt.strftime("%I:%M %p").lstrip('0')`. -/
def fmt (dt : DateTime) : String :=
  String.mk (lstripZeros (pad2 (hour12 dt) ++ ':' :: pad2 dt.minute
    ++ ' ' :: ampm dt))

/-- One itinerary step dict (source lines 336-363). -/
inductive Step
  | walk (fromPlace toPlace : String) (minutes : ℤ)
  | wait (atStop : String) (route : String) (minutes : ℤ)
  | shuttle (route fromPlace toPlace : String) (minutes : ℤ) (miles : ℚ)
deriving DecidableEq, Repr

/-- The `totals` sub-dict of a successful plan (source lines 371-376). -/
structure Totals where
  minutes : ℤ
  walk_minutes : ℤ
  wait_minutes : ℤ
  in_vehicle_minutes : ℤ
deriving DecidableEq, Repr

/-- The `times` sub-dict of a successful plan (source lines 377-380). -/
structure Times where
  board_time : String
  arrival_time : String
deriving DecidableEq, Repr

/-- The result dict of `plan_shuttle_trip`: one constructor per returned
shape (source lines 266-271, 274-280, 284-288 and 365-382). -/
inductive PlanResult
  | failNoRoute (reason : String) (origin_stop dest_stop : String)
  | failNotOperating (reason route_name origin_stop dest_stop : String)
  | failNoHeadway (reason route_name : String)
  | ok (route_name origin_stop dest_stop : String) (steps : List Step)
      (totals : Totals) (times : Times) (uses_google_api : Bool)
deriving DecidableEq, Repr

/-- The `success` key of the result dict. -/
def PlanResult.success : PlanResult → Bool
  | .ok .. => true
  | _ => false

/-- Whether the result is the "has no service at this time/day" failure of
source lines 284-288. -/
def PlanResult.isNoHeadwayFail : PlanResult → Bool
  | .failNoHeadway .. => true
  | _ => false

/-- `int(in_vehicle_min * 1.2)` (source line 321): scale by 1.2 and truncate
toward zero (the float factor is modelled as the exact rational 6/5). -/
def scale_google_minutes (m : ℤ) : ℤ :=
  Int.tdiv (m * 12) 10

/-- `plan_shuttle_trip` (source lines 251-382).  `hav` stands for the float
`haversine_miles`; `walkEst` and `driveEst` stand for the two Google
Directions helpers of lines 132-175 (for api_key `None` both are the
constant-`none` function).  `none` models an uncaught exception; each
`some` is the returned dict. -/
def plan_shuttle_trip (hav : ℚ → ℚ → ℚ → ℚ → ℚ)
    (walkEst driveEst : ℚ × ℚ → ℚ × ℚ → Option ℤ)
    (origin_coords dest_coords : ℚ × ℚ) (when : DateTime) :
    Option PlanResult :=
  match find_nearest_stop hav origin_coords.1 origin_coords.2 with
  | none => none
  | some (o_stop, o_stop_dist) =>
  match find_nearest_stop hav dest_coords.1 dest_coords.2 with
  | none => none
  | some (d_stop, d_stop_dist) =>
  match find_route_connecting o_stop d_stop with
  | none =>
      some (.failNoRoute ("No single shuttle route connects the nearest stops")
        o_stop.name d_stop.name)
  | some route =>
  if ¬ service_is_active route when then
    some (.failNotOperating (route.name ++ " not operating at selected time")
      route.name o_stop.name d_stop.name)
  else
  match headway_minutes route when with
  | none =>
      some (.failNoHeadway (route.name ++ " has no service at this time/day")
        route.name)
  | some hw =>
  let g1 := walkEst origin_coords (o_stop.lat, o_stop.lon)
  let walk_to_stop_min :=
    match g1 with
    | some m => m
    | none => walking_minutes_heuristic o_stop_dist
  let g2 := walkEst (d_stop.lat, d_stop.lon) dest_coords
  let walk_from_stop_min :=
    match g2 with
    | some m => m
    | none => walking_minutes_heuristic d_stop_dist
  let wait_min := max 1 (hw / 2)
  match distance_along_route hav route o_stop d_stop with
  | none => none
  | some in_vehicle_miles =>
  let g3 := driveEst (o_stop.lat, o_stop.lon) (d_stop.lat, d_stop.lon)
  let in_vehicle_min :=
    match g3 with
    | some m => scale_google_minutes m
    | none => estimate_in_vehicle_minutes in_vehicle_miles
  let uses_google_api := g1.isSome || g2.isSome || g3.isSome
  let total_min := walk_to_stop_min + wait_min + in_vehicle_min
    + walk_from_stop_min
  let board_time := when.addMinutes (walk_to_stop_min + wait_min)
  let arrive_time := board_time.addMinutes (in_vehicle_min + walk_from_stop_min)
  some (.ok route.name o_stop.name d_stop.name
    [ .walk ("Origin") o_stop.name walk_to_stop_min,
      .wait o_stop.name route.name wait_min,
      .shuttle route.name o_stop.name d_stop.name in_vehicle_min
        (round2 in_vehicle_miles),
      .walk d_stop.name ("Destination") walk_from_stop_min ]
    ⟨total_min, walk_to_stop_min + walk_from_stop_min, wait_min,
      in_vehicle_min⟩
    ⟨fmt board_time, fmt arrive_time⟩
    uses_google_api)

/-- Spec-side mirror of section 4.3: the weekday or weekend window selected
by `is_weekend`, absent on weekends without weekend service. -/
def chosen_window (route : RouteDefinition) (dt : DateTime) :
    Option (ClockTime × ClockTime) :=
  if is_weekend dt then route.service_span_weekend
  else some route.service_span_weekday

/-- A concrete stand-in distance for evaluating witnesses: squared euclidean
distance on raw coordinates.  It shares with the real haversine the facts
the theorems assume: zero at identical points, positive at distinct ones. -/
def sqDist (la lo lb lob : ℚ) : ℚ :=
  (la - lb) * (la - lb) + (lo - lob) * (lo - lob)

/-- The estimator a `None` api_key yields: both Google helpers return `None`
at once (source lines 138-139 and 161-162). -/
def noEst : ℚ × ℚ → ℚ × ℚ → Option ℤ :=
  fun _ _ => none

/-- Abbreviation for the stop `find_nearest_stop` selects (the fold of the
source's `min` over the de-duplicated stop list, whose concrete value
`uniqueStops_eq` establishes). -/
def nearestStop (hav : ℚ → ℚ → ℚ → ℚ → ℚ) (lat lon : ℚ) : Stop :=
  minFold (fun s => hav lat lon s.lat s.lon) MOREWOOD_FORBES
    [FIFTH_AIKEN, MURRAY_FORBES, PTC_TECH_DR, MILL_19, BAKERY_SQUARE]

end ShuttleRouting

namespace ShuttleRouting

/-- The weekday number is always in 0..6. -/
theorem weekday_lt_7 (dt : DateTime) : dt.weekday < 7 := by
  unfold DateTime.weekday
  have h1 : 0 ≤ dt.minutes / 1440 % 7 := Int.emod_nonneg _ (by norm_num)
  have h2 : dt.minutes / 1440 % 7 < 7 := Int.emod_lt_of_pos _ (by norm_num)
  omega

/-- The de-duplicated stop set is these six stops, in first-appearance
order over the route catalog. -/
theorem uniqueStops_eq :
    uniqueByName all_stops =
      [MOREWOOD_FORBES, FIFTH_AIKEN, MURRAY_FORBES, PTC_TECH_DR,
       MILL_19, BAKERY_SQUARE] := by
  rfl

/-- The route-scanning loop is `List.find?` over the catalog order. -/
theorem frc_aux_eq_find? (o d : Stop) (l : List RouteDefinition) :
    find_route_connecting_aux o d l = l.find? (route_connects o d) := by
  induction l with
  | nil => rfl
  | cons r rest ih =>
      rw [find_route_connecting_aux]
      cases hp : route_connects o d r with
      | true =>
          have hc := of_decide_eq_true (route_connects.eq_def o d r ▸ hp)
          rw [if_pos ⟨hc.1, hc.2.1⟩, if_pos hc.2.2,
            List.find?_cons_of_pos _ hp]
      | false =>
          have hc := of_decide_eq_false (route_connects.eq_def o d r ▸ hp)
          rw [List.find?_cons_of_neg _ (by simp [hp])]
          by_cases h1 : o.name ∈ r.stops.map (fun s => s.name) ∧
              d.name ∈ r.stops.map (fun s => s.name)
          · rw [if_pos h1, if_neg (fun h2 => hc ⟨h1.1, h1.2, h2⟩)]
            exact ih
          · rw [if_neg h1]
            exact ih

/-- C3: `service_is_active` returns false on a weekend (Saturday or Sunday)
without a weekend window, and otherwise tests the window selected by
`is_weekend` with inclusive minutes-since-midnight bounds. -/
theorem claim_service_window (route : RouteDefinition) (dt : DateTime) :
    (is_weekend dt = true ↔ dt.weekday = 5 ∨ dt.weekday = 6) ∧
    (is_weekend dt = true → route.service_span_weekend = none →
      service_is_active route dt = false) ∧
    (∀ s e, chosen_window route dt = some (s, e) →
      (service_is_active route dt = true ↔
        s.hour * 60 + s.minute ≤ minutes_since_midnight dt ∧
        minutes_since_midnight dt ≤ e.hour * 60 + e.minute)) := by
  refine ⟨?_, ?_, ?_⟩
  · have h7 : dt.weekday < 7 := weekday_lt_7 dt
    unfold is_weekend
    constructor
    · intro h
      have := of_decide_eq_true h
      omega
    · intro h
      apply decide_eq_true
      omega
  · intro hw hnone
    unfold service_is_active
    simp [hw, hnone]
  · intro s e hce
    unfold chosen_window at hce
    unfold service_is_active
    cases hw : is_weekend dt with
    | true =>
        simp only [hw, if_true] at hce
        simp [hw, hce]
    | false =>
        simp only [hw, Bool.false_eq_true, if_false, Option.some.injEq] at hce
        simp [hw, hce]

/-- C5: `find_route_connecting` is the first catalog route whose stop-name
sequence contains both names at different positions; it is `none` exactly
when no route connects the pair, and a later matching route is never
returned (the `List.find?` characterization). -/
theorem claim_first_match (o d : Stop) :
    find_route_connecting o d = ROUTES.find? (route_connects o d) ∧
    (find_route_connecting o d = none ↔
      ∀ rt ∈ ROUTES, route_connects o d rt = false) := by
  have h := frc_aux_eq_find? o d ROUTES
  refine ⟨h, ?_⟩
  rw [show find_route_connecting o d = _ from h]
  constructor
  · intro hn rt hrt
    have := List.find?_eq_none.mp hn rt hrt
    simpa using this
  · intro hall
    apply List.find?_eq_none.mpr
    intro x hx
    simp [hall x hx]

/-- C8: `distance_along_route` is independent of argument order, and is
defined (returns a value) whenever both stop names occur in the route's
stop sequence. -/
theorem claim_distance_direction_independent (hav : ℚ → ℚ → ℚ → ℚ → ℚ)
    (route : RouteDefinition) (a b : Stop) :
    distance_along_route hav route a b = distance_along_route hav route b a ∧
    (a.name ∈ route.stops.map (fun s => s.name) →
      b.name ∈ route.stops.map (fun s => s.name) →
      ∃ q, distance_along_route hav route a b = some q) := by
  constructor
  · unfold distance_along_route
    rcases hia : (route.stops.map (fun s => s.name)).findIdx?
        (fun n => n == a.name) with _ | ia
    · rcases hib : (route.stops.map (fun s => s.name)).findIdx?
          (fun n => n == b.name) with _ | ib
      · simp [hia, hib]
      · simp [hia, hib]
    · rcases hib : (route.stops.map (fun s => s.name)).findIdx?
          (fun n => n == b.name) with _ | ib
      · simp [hia, hib]
      · simp only [hia, hib]
        rcases Nat.lt_trichotomy ia ib with h | h | h
        · have h1 : ¬ ib < ia := by omega
          simp [h, h1]
        · simp [h]
        · have h1 : ¬ ia < ib := by omega
          simp [h, h1]
  · intro ha hb
    have h1 : ((route.stops.map (fun s => s.name)).findIdx?
        (fun n => n == a.name)).isSome = true := by
      rw [List.findIdx?_isSome]
      exact List.any_eq_true.mpr ⟨a.name, ha, by simp⟩
    have h2 : ((route.stops.map (fun s => s.name)).findIdx?
        (fun n => n == b.name)).isSome = true := by
      rw [List.findIdx?_isSome]
      exact List.any_eq_true.mpr ⟨b.name, hb, by simp⟩
    obtain ⟨ia, hia⟩ := Option.isSome_iff_exists.mp h1
    obtain ⟨ib, hib⟩ := Option.isSome_iff_exists.mp h2
    unfold distance_along_route
    simp only [hia, hib]
    exact ⟨_, rfl⟩

end ShuttleRouting

namespace ShuttleRouting

/-- Python's first-minimum-wins fold splits its input around the returned
element: everything before it has a strictly larger key, everything after
a larger-or-equal one. -/
theorem minFold_split (k : Stop → ℚ) (l : List Stop) (b : Stop) :
    ∃ l1 l2, b :: l = l1 ++ (minFold k b l) :: l2 ∧
      (∀ t ∈ l1, k (minFold k b l) < k t) ∧
      (∀ t ∈ l2, k (minFold k b l) ≤ k t) := by
  induction l generalizing b with
  | nil => exact ⟨[], [], rfl, by simp, by simp⟩
  | cons s l ih =>
      by_cases hcmp : k s < k b
      · have heq : minFold k b (s :: l) = minFold k s l := by
          simp only [minFold, List.foldl_cons]
          rw [if_pos hcmp]
        obtain ⟨l1, l2, hsplit, hstrict, hle⟩ := ih s
        rw [heq]
        cases l1 with
        | nil =>
            simp only [List.nil_append, List.cons.injEq] at hsplit
            obtain ⟨hm, hl⟩ := hsplit
            refine ⟨[b], l2, ?_, ?_, hle⟩
            · simp [← hm, ← hl]
            · intro t ht
              simp only [List.mem_singleton] at ht
              subst ht
              rw [← hm]
              exact hcmp
        | cons a l1' =>
            simp only [List.cons_append, List.cons.injEq] at hsplit
            obtain ⟨ha, hl⟩ := hsplit
            refine ⟨b :: s :: l1', l2, ?_, ?_, hle⟩
            · conv_lhs => rw [hl]
              rfl
            · intro t ht
              have hks : k (minFold k s l) < k s := by
                have := hstrict a (by simp)
                rwa [← ha] at this
              rcases List.mem_cons.mp ht with rfl | ht
              · exact lt_trans hks hcmp
              · rcases List.mem_cons.mp ht with rfl | ht
                · exact hks
                · exact hstrict t (by simp [ht])
      · have heq : minFold k b (s :: l) = minFold k b l := by
          simp only [minFold, List.foldl_cons]
          rw [if_neg hcmp]
        obtain ⟨l1, l2, hsplit, hstrict, hle⟩ := ih b
        rw [heq]
        cases l1 with
        | nil =>
            simp only [List.nil_append, List.cons.injEq] at hsplit
            obtain ⟨hm, hl⟩ := hsplit
            refine ⟨[], s :: l2, ?_, by simp, ?_⟩
            · simp [← hm, ← hl]
            · intro t ht
              rcases List.mem_cons.mp ht with rfl | ht
              · rw [← hm]
                exact le_of_not_lt hcmp
              · exact hle t ht
        | cons a l1' =>
            simp only [List.cons_append, List.cons.injEq] at hsplit
            obtain ⟨ha, hl⟩ := hsplit
            have hkb : k (minFold k b l) < k b := by
              have := hstrict a (by simp)
              rwa [← ha] at this
            refine ⟨b :: s :: l1', l2, ?_, ?_, hle⟩
            · conv_lhs => rw [hl]
              rfl
            · intro t ht
              rcases List.mem_cons.mp ht with rfl | ht
              · exact hkb
              · rcases List.mem_cons.mp ht with rfl | ht
                · exact lt_of_lt_of_le hkb (le_of_not_lt hcmp)
                · exact hstrict t (by simp [ht])

/-- The fold's result is one of the candidates. -/
theorem minFold_mem (k : Stop → ℚ) (l : List Stop) (b : Stop) :
    minFold k b l ∈ b :: l := by
  obtain ⟨l1, l2, hsplit, -, -⟩ := minFold_split k l b
  rw [hsplit]
  exact List.mem_append.mpr (Or.inr (List.mem_cons_self _ _))

/-- The fold's result has a minimal key among the candidates. -/
theorem minFold_le (k : Stop → ℚ) (l : List Stop) (b : Stop) :
    ∀ t ∈ b :: l, k (minFold k b l) ≤ k t := by
  obtain ⟨l1, l2, hsplit, hstrict, hle⟩ := minFold_split k l b
  intro t ht
  rw [hsplit] at ht
  rcases List.mem_append.mp ht with ht | ht
  · exact le_of_lt (hstrict t ht)
  · rcases List.mem_cons.mp ht with rfl | ht
    · exact le_refl _
    · exact hle t ht

/-- `find_nearest_stop` always returns the fold's choice over the six
de-duplicated stops, paired with its distance key. -/
theorem find_nearest_stop_eq (hav : ℚ → ℚ → ℚ → ℚ → ℚ) (lat lon : ℚ) :
    find_nearest_stop hav lat lon =
      some (nearestStop hav lat lon,
        hav lat lon (nearestStop hav lat lon).lat
          (nearestStop hav lat lon).lon) := by
  rw [find_nearest_stop, uniqueStops_eq]
  rfl

/-- Every stop of the raw catalog concatenation is in the de-duplicated
list (in this catalog, duplicate names are duplicate identical records). -/
theorem all_stops_subset_unique :
    ∀ t ∈ all_stops, t ∈ uniqueByName all_stops := by
  rw [uniqueStops_eq, show all_stops =
    [MOREWOOD_FORBES, FIFTH_AIKEN, MOREWOOD_FORBES, MURRAY_FORBES,
     MOREWOOD_FORBES, PTC_TECH_DR, MILL_19, MOREWOOD_FORBES, BAKERY_SQUARE]
    from rfl]
  intro t ht
  simp only [List.mem_cons, List.not_mem_nil, or_false] at ht
  rcases ht with rfl | rfl | rfl | rfl | rfl | rfl | rfl | rfl | rfl <;> simp

/-- C4: the nearest-stop resolver returns a member of the de-duplicated
stop set together with its own distance, that distance is a minimum over
the whole catalog, and every stop listed before the result in catalog
order is strictly farther (first-encountered wins ties). -/
theorem claim_nearest_stop (hav : ℚ → ℚ → ℚ → ℚ → ℚ) (lat lon : ℚ)
    (s : Stop) (dist : ℚ)
    (h : find_nearest_stop hav lat lon = some (s, dist)) :
    s ∈ uniqueByName all_stops ∧
    dist = hav lat lon s.lat s.lon ∧
    (∀ t ∈ all_stops, hav lat lon s.lat s.lon ≤ hav lat lon t.lat t.lon) ∧
    ∃ l1 l2, uniqueByName all_stops = l1 ++ s :: l2 ∧
      (∀ t ∈ l1, hav lat lon s.lat s.lon < hav lat lon t.lat t.lon) ∧
      (∀ t ∈ l2, hav lat lon s.lat s.lon ≤ hav lat lon t.lat t.lon) := by
  rw [find_nearest_stop_eq hav lat lon, Option.some.injEq, Prod.mk.injEq] at h
  obtain ⟨hs, hdist⟩ := h
  subst hs
  have hmem := minFold_mem (fun t => hav lat lon t.lat t.lon)
    [FIFTH_AIKEN, MURRAY_FORBES, PTC_TECH_DR, MILL_19, BAKERY_SQUARE]
    MOREWOOD_FORBES
  have hle := minFold_le (fun t => hav lat lon t.lat t.lon)
    [FIFTH_AIKEN, MURRAY_FORBES, PTC_TECH_DR, MILL_19, BAKERY_SQUARE]
    MOREWOOD_FORBES
  refine ⟨?_, hdist.symm, ?_, ?_⟩
  · rw [uniqueStops_eq]
    exact hmem
  · intro t ht
    have := all_stops_subset_unique t ht
    rw [uniqueStops_eq] at this
    exact hle t this
  · rw [uniqueStops_eq]
    exact minFold_split (fun t => hav lat lon t.lat t.lon)
      [FIFTH_AIKEN, MURRAY_FORBES, PTC_TECH_DR, MILL_19, BAKERY_SQUARE]
      MOREWOOD_FORBES

/-- Witness for C4 at a concrete input: the all-zero distance key resolves
(0, 0) to the first catalog stop. -/
theorem claim_nearest_stop_witness :
    MOREWOOD_FORBES ∈ uniqueByName all_stops :=
  (claim_nearest_stop (fun _ _ _ _ => (0 : ℚ)) 0 0 MOREWOOD_FORBES 0 rfl).1

end ShuttleRouting

namespace ShuttleRouting

/-- A found connecting route is a catalog route containing both stop names. -/
theorem route_connects_props (o d : Stop) (rt : RouteDefinition)
    (h : find_route_connecting o d = some rt) :
    rt ∈ ROUTES ∧ o.name ∈ rt.stops.map (fun s => s.name) ∧
      d.name ∈ rt.stops.map (fun s => s.name) := by
  rw [find_route_connecting, frc_aux_eq_find?] at h
  have hmem := List.mem_of_find?_eq_some h
  have hp := List.find?_some h
  have hc := of_decide_eq_true (route_connects.eq_def o d rt ▸ hp)
  exact ⟨hmem, hc.1, hc.2.1⟩

/-- Every catalog route that is active at a moment has a headway for that
moment's day-type: weekday headways always exist, and the two routes with a
weekend service window both define a weekend headway. -/
theorem headway_some_of_active (rt : RouteDefinition) (hrt : rt ∈ ROUTES)
    (dt : DateTime) (hact : service_is_active rt dt = true) :
    ∃ hw, headway_minutes rt dt = some hw := by
  rw [headway_minutes]
  cases hw : is_weekend dt with
  | false =>
      simp only [Bool.false_eq_true, if_false]
      exact ⟨_, rfl⟩
  | true =>
      simp only [if_true]
      fin_cases hrt
      · exact ⟨15, rfl⟩
      · rw [service_is_active] at hact
        simp [hw] at hact
      · exact ⟨45, rfl⟩
      · rw [service_is_active] at hact
        simp [hw] at hact

/-- `distance_along_route` returns a value whenever both stop names occur
in the route's stop sequence. -/
theorem dar_some_of_mem (hav : ℚ → ℚ → ℚ → ℚ → ℚ) (route : RouteDefinition)
    (a b : Stop) (ha : a.name ∈ route.stops.map (fun s => s.name))
    (hb : b.name ∈ route.stops.map (fun s => s.name)) :
    ∃ q, distance_along_route hav route a b = some q := by
  have h1 : ((route.stops.map (fun s => s.name)).findIdx?
      (fun n => n == a.name)).isSome = true := by
    rw [List.findIdx?_isSome]
    exact List.any_eq_true.mpr ⟨a.name, ha, by simp⟩
  have h2 : ((route.stops.map (fun s => s.name)).findIdx?
      (fun n => n == b.name)).isSome = true := by
    rw [List.findIdx?_isSome]
    exact List.any_eq_true.mpr ⟨b.name, hb, by simp⟩
  obtain ⟨ia, hia⟩ := Option.isSome_iff_exists.mp h1
  obtain ⟨ib, hib⟩ := Option.isSome_iff_exists.mp h2
  rw [distance_along_route]
  simp only [hia, hib]
  exact ⟨_, rfl⟩

/-- When no route connects the two resolved stops, the plan is the
structured no-route failure carrying both resolved stop names. -/
theorem plan_eq_of_noRoute (hav : ℚ → ℚ → ℚ → ℚ → ℚ)
    (wE dE : ℚ × ℚ → ℚ × ℚ → Option ℤ) (oc dc : ℚ × ℚ) (when : DateTime)
    (o : Stop) (oD : ℚ) (d : Stop) (dD : ℚ)
    (ho : find_nearest_stop hav oc.1 oc.2 = some (o, oD))
    (hd : find_nearest_stop hav dc.1 dc.2 = some (d, dD))
    (hrc : find_route_connecting o d = none) :
    plan_shuttle_trip hav wE dE oc dc when =
      some (.failNoRoute ("No single shuttle route connects the nearest stops")
        o.name d.name) := by
  rw [plan_shuttle_trip]
  simp only [ho, hd, hrc]

/-- When the connecting route is not active, the plan is the structured
not-operating failure carrying the route name and both stop names. -/
theorem plan_eq_of_inactive (hav : ℚ → ℚ → ℚ → ℚ → ℚ)
    (wE dE : ℚ × ℚ → ℚ × ℚ → Option ℤ) (oc dc : ℚ × ℚ) (when : DateTime)
    (o : Stop) (oD : ℚ) (d : Stop) (dD : ℚ) (rt : RouteDefinition)
    (ho : find_nearest_stop hav oc.1 oc.2 = some (o, oD))
    (hd : find_nearest_stop hav dc.1 dc.2 = some (d, dD))
    (hrc : find_route_connecting o d = some rt)
    (hact : service_is_active rt when = false) :
    plan_shuttle_trip hav wE dE oc dc when =
      some (.failNotOperating (rt.name ++ " not operating at selected time")
        rt.name o.name d.name) := by
  rw [plan_shuttle_trip]
  simp only [ho, hd, hrc, hact]
  simp

/-- When the connecting route is active and has a headway, the plan is a
structured success whose payload has the shape of source lines 365-382:
four chronological steps, totals that sum the four segments, and clock
times derived from the query timestamp. -/
theorem plan_success_shape (hav : ℚ → ℚ → ℚ → ℚ → ℚ)
    (wE dE : ℚ × ℚ → ℚ × ℚ → Option ℤ) (oc dc : ℚ × ℚ) (when : DateTime)
    (o : Stop) (oD : ℚ) (d : Stop) (dD : ℚ) (rt : RouteDefinition) (hw : ℤ)
    (miles : ℚ)
    (ho : find_nearest_stop hav oc.1 oc.2 = some (o, oD))
    (hd : find_nearest_stop hav dc.1 dc.2 = some (d, dD))
    (hrc : find_route_connecting o d = some rt)
    (hact : service_is_active rt when = true)
    (hhw : headway_minutes rt when = some hw)
    (hdist : distance_along_route hav rt o d = some miles) :
    ∃ wTo wFrom iv ug,
      plan_shuttle_trip hav wE dE oc dc when =
        some (.ok rt.name o.name d.name
          [ .walk ("Origin") o.name wTo,
            .wait o.name rt.name (max 1 (hw / 2)),
            .shuttle rt.name o.name d.name iv (round2 miles),
            .walk d.name ("Destination") wFrom ]
          ⟨wTo + max 1 (hw / 2) + iv + wFrom, wTo + wFrom, max 1 (hw / 2), iv⟩
          ⟨fmt (when.addMinutes (wTo + max 1 (hw / 2))),
           fmt ((when.addMinutes (wTo + max 1 (hw / 2))).addMinutes
             (iv + wFrom))⟩
          ug) ∧
      (wE oc (o.lat, o.lon) = none → wTo = walking_minutes_heuristic oD) ∧
      (wE (d.lat, d.lon) dc = none → wFrom = walking_minutes_heuristic dD) ∧
      (dE (o.lat, o.lon) (d.lat, d.lon) = none →
        iv = estimate_in_vehicle_minutes miles) ∧
      (wE oc (o.lat, o.lon) = none → wE (d.lat, d.lon) dc = none →
        dE (o.lat, o.lon) (d.lat, d.lon) = none → ug = false) := by
  refine ⟨(match wE oc (o.lat, o.lon) with
           | some m => m
           | none => walking_minutes_heuristic oD),
          (match wE (d.lat, d.lon) dc with
           | some m => m
           | none => walking_minutes_heuristic dD),
          (match dE (o.lat, o.lon) (d.lat, d.lon) with
           | some m => scale_google_minutes m
           | none => estimate_in_vehicle_minutes miles),
          ((wE oc (o.lat, o.lon)).isSome || (wE (d.lat, d.lon) dc).isSome
            || (dE (o.lat, o.lon) (d.lat, d.lon)).isSome),
          ?_, ?_, ?_, ?_, ?_⟩
  · rw [plan_shuttle_trip]
    simp only [ho, hd, hrc, hact, hhw, hdist]
    simp
  · intro h1
    rw [h1]
  · intro h2
    rw [h2]
  · intro h3
    rw [h3]
  · intro h1 h2 h3
    rw [h1, h2, h3]
    rfl

end ShuttleRouting

namespace ShuttleRouting

/-- C1: with any estimators, `plan_shuttle_trip` always returns a value
(never `none`, the model of a raise), and any non-success return is one of
the structured failures, carrying `success = false`, its reason string and
the identification resolved at that point: the no-route failure carries
both resolved stop names, the not-operating failure additionally the found
route's name.  (The third, no-headway failure is never returned at all:
see the no-headway-unreachable theorem.) -/
theorem claim_failures_are_values (hav : ℚ → ℚ → ℚ → ℚ → ℚ)
    (wE dE : ℚ × ℚ → ℚ × ℚ → Option ℤ) (oc dc : ℚ × ℚ) (when : DateTime) :
    ∃ o oD d dD r,
      find_nearest_stop hav oc.1 oc.2 = some (o, oD) ∧
      find_nearest_stop hav dc.1 dc.2 = some (d, dD) ∧
      plan_shuttle_trip hav wE dE oc dc when = some r ∧
      (r.success = true ∨
       (find_route_connecting o d = none ∧
        r = .failNoRoute ("No single shuttle route connects the nearest stops")
          o.name d.name ∧ r.success = false) ∨
       (∃ rt, find_route_connecting o d = some rt ∧
        r = .failNotOperating (rt.name ++ " not operating at selected time")
          rt.name o.name d.name ∧ r.success = false)) := by
  have ho := find_nearest_stop_eq hav oc.1 oc.2
  have hd := find_nearest_stop_eq hav dc.1 dc.2
  rcases hrc : find_route_connecting (nearestStop hav oc.1 oc.2)
      (nearestStop hav dc.1 dc.2) with _ | rt
  · exact ⟨_, _, _, _, _, ho, hd,
      plan_eq_of_noRoute hav wE dE oc dc when _ _ _ _ ho hd hrc,
      Or.inr (Or.inl ⟨hrc, rfl, rfl⟩)⟩
  · cases hact : service_is_active rt when with
    | false =>
        exact ⟨_, _, _, _, _, ho, hd,
          plan_eq_of_inactive hav wE dE oc dc when _ _ _ _ rt ho hd hrc hact,
          Or.inr (Or.inr ⟨rt, hrc, rfl, rfl⟩)⟩
    | true =>
        obtain ⟨hmem, hom, hdm⟩ := route_connects_props _ _ _ hrc
        obtain ⟨hw, hhw⟩ := headway_some_of_active rt hmem when hact
        obtain ⟨miles, hdist⟩ := dar_some_of_mem hav rt _ _ hom hdm
        obtain ⟨wTo, wFrom, iv, ug, hplan, -, -, -, -⟩ :=
          plan_success_shape hav wE dE oc dc when _ _ _ _ rt hw miles
            ho hd hrc hact hhw hdist
        exact ⟨_, _, _, _, _, ho, hd, hplan, Or.inl rfl⟩

/-- C9: when both coordinate pairs resolve to the same stop name (in
particular for identical coordinates), the plan is the no-route failure
with its fixed reason string, because no catalog route lists one stop
name at two different positions. -/
theorem claim_same_stop_fails (hav : ℚ → ℚ → ℚ → ℚ → ℚ)
    (wE dE : ℚ × ℚ → ℚ × ℚ → Option ℤ) (oc dc : ℚ × ℚ) (when : DateTime)
    (o : Stop) (oD : ℚ) (d : Stop) (dD : ℚ)
    (ho : find_nearest_stop hav oc.1 oc.2 = some (o, oD))
    (hd : find_nearest_stop hav dc.1 dc.2 = some (d, dD))
    (hname : o.name = d.name) :
    plan_shuttle_trip hav wE dE oc dc when =
      some (.failNoRoute ("No single shuttle route connects the nearest stops")
        o.name d.name) ∧
    ∀ rt ∈ ROUTES, (rt.stops.map (fun s => s.name)).Nodup := by
  have hrc : find_route_connecting o d = none := by
    rw [find_route_connecting, frc_aux_eq_find?]
    apply List.find?_eq_none.mpr
    intro rt hrt
    simp only [route_connects, decide_eq_true_eq, not_and]
    intro h1 h2 hne
    exact hne (by rw [hname])
  exact ⟨plan_eq_of_noRoute hav wE dE oc dc when o oD d dD ho hd hrc,
    by decide⟩

/-- Witness for C9: identical coordinates, a constant-zero distance key,
any estimators: both queries resolve to the first catalog stop. -/
theorem claim_same_stop_fails_witness :
    plan_shuttle_trip (fun _ _ _ _ => (0 : ℚ)) noEst noEst (0, 0) (0, 0)
        ⟨600⟩ =
      some (.failNoRoute ("No single shuttle route connects the nearest stops")
        MOREWOOD_FORBES.name MOREWOOD_FORBES.name) ∧
    ∀ rt ∈ ROUTES, (rt.stops.map (fun s => s.name)).Nodup :=
  claim_same_stop_fails (fun _ _ _ _ => (0 : ℚ)) noEst noEst (0, 0) (0, 0)
    ⟨600⟩ MOREWOOD_FORBES 0 MOREWOOD_FORBES 0 rfl rfl rfl

/-- C10: the "no service at this time/day" branch is unreachable with the
built-in catalog: an active route always has a headway for the day-type,
and no call of `plan_shuttle_trip` ever returns the no-headway failure. -/
theorem claim_no_headway_unreachable :
    (∀ rt ∈ ROUTES, ∀ dt : DateTime,
      service_is_active rt dt = true → (headway_minutes rt dt).isSome = true) ∧
    (∀ (hav : ℚ → ℚ → ℚ → ℚ → ℚ) (wE dE : ℚ × ℚ → ℚ × ℚ → Option ℤ)
       (oc dc : ℚ × ℚ) (when : DateTime) (r : PlanResult),
      plan_shuttle_trip hav wE dE oc dc when = some r →
      r.isNoHeadwayFail = false) := by
  constructor
  · intro rt hrt dt hact
    obtain ⟨hw, hhw⟩ := headway_some_of_active rt hrt dt hact
    rw [hhw]
    rfl
  · intro hav wE dE oc dc when r hr
    have ho := find_nearest_stop_eq hav oc.1 oc.2
    have hd := find_nearest_stop_eq hav dc.1 dc.2
    rcases hrc : find_route_connecting (nearestStop hav oc.1 oc.2)
        (nearestStop hav dc.1 dc.2) with _ | rt
    · rw [plan_eq_of_noRoute hav wE dE oc dc when _ _ _ _ ho hd hrc,
        Option.some.injEq] at hr
      rw [← hr]
      rfl
    · cases hact : service_is_active rt when with
      | false =>
          rw [plan_eq_of_inactive hav wE dE oc dc when _ _ _ _ rt ho hd hrc
            hact, Option.some.injEq] at hr
          rw [← hr]
          rfl
      | true =>
          obtain ⟨hmem, hom, hdm⟩ := route_connects_props _ _ _ hrc
          obtain ⟨hw, hhw⟩ := headway_some_of_active rt hmem when hact
          obtain ⟨miles, hdist⟩ := dar_some_of_mem hav rt _ _ hom hdm
          obtain ⟨wTo, wFrom, iv, ug, hplan, -, -, -, -⟩ :=
            plan_success_shape hav wE dE oc dc when _ _ _ _ rt hw miles
              ho hd hrc hact hhw hdist
          rw [hplan, Option.some.injEq] at hr
          rw [← hr]
          rfl

end ShuttleRouting

namespace ShuttleRouting

/-- Stripping leading zero characters never leaves a zero in front. -/
theorem lstripZeros_head?_ne (l : List Char) :
    (lstripZeros l).head? ≠ some '0' := by
  induction l with
  | nil => simp [lstripZeros]
  | cons c rest ih =>
      rw [lstripZeros]
      by_cases hc : c = '0'
      · simpa [hc] using ih
      · simp [hc]

/-- The clock format of the plan never starts with a zero digit. -/
theorem fmt_head?_ne (dt : DateTime) : (fmt dt).data.head? ≠ some '0' := by
  rw [fmt]
  exact lstripZeros_head?_ne _

/-- C6: every successful plan's wait is `max 1 (headway / 2)` for the
connecting route's day-type headway: the weekend headway on weekends and
the weekday headway on weekdays. -/
theorem claim_wait_half_headway (hav : ℚ → ℚ → ℚ → ℚ → ℚ)
    (wE dE : ℚ × ℚ → ℚ × ℚ → Option ℤ) (oc dc : ℚ × ℚ) (when : DateTime)
    (rn osn dsn : String) (steps : List Step) (totals : Totals) (times : Times)
    (ug : Bool)
    (h : plan_shuttle_trip hav wE dE oc dc when =
      some (.ok rn osn dsn steps totals times ug)) :
    ∃ o oD d dD rt hw,
      find_nearest_stop hav oc.1 oc.2 = some (o, oD) ∧
      find_nearest_stop hav dc.1 dc.2 = some (d, dD) ∧
      find_route_connecting o d = some rt ∧ rt ∈ ROUTES ∧ rn = rt.name ∧
      headway_minutes rt when = some hw ∧
      totals.wait_minutes = max 1 (hw / 2) ∧
      (is_weekend when = true → rt.weekend_headway_min = some hw) ∧
      (is_weekend when = false → hw = rt.weekday_headway_min) := by
  have ho := find_nearest_stop_eq hav oc.1 oc.2
  have hd := find_nearest_stop_eq hav dc.1 dc.2
  rcases hrc : find_route_connecting (nearestStop hav oc.1 oc.2)
      (nearestStop hav dc.1 dc.2) with _ | rt
  · rw [plan_eq_of_noRoute hav wE dE oc dc when _ _ _ _ ho hd hrc] at h
    simp at h
  · cases hact : service_is_active rt when with
    | false =>
        rw [plan_eq_of_inactive hav wE dE oc dc when _ _ _ _ rt ho hd hrc
          hact] at h
        simp at h
    | true =>
        obtain ⟨hmem, hom, hdm⟩ := route_connects_props _ _ _ hrc
        obtain ⟨hw, hhw⟩ := headway_some_of_active rt hmem when hact
        obtain ⟨miles, hdist⟩ := dar_some_of_mem hav rt _ _ hom hdm
        obtain ⟨wTo, wFrom, iv, ug2, hplan, -, -, -, -⟩ :=
          plan_success_shape hav wE dE oc dc when _ _ _ _ rt hw miles
            ho hd hrc hact hhw hdist
        rw [hplan] at h
        simp only [Option.some.injEq, PlanResult.ok.injEq] at h
        obtain ⟨hn, -, -, -, htot, -, -⟩ := h
        refine ⟨_, _, _, _, rt, hw, ho, hd, hrc, hmem, hn.symm, hhw,
          ?_, ?_, ?_⟩
        · rw [← htot]
        · intro hwk
          rw [headway_minutes] at hhw
          simpa [hwk] using hhw
        · intro hwk
          rw [headway_minutes] at hhw
          have := by simpa [hwk] using hhw
          exact this.symm

/-- Scenario A resolved origin: the Morewood query point is nearest to the
Morewood stop under the witness distance. -/
theorem scenario_a_origin : find_nearest_stop sqDist 40.4449 (-79.9429) =
    some (MOREWOOD_FORBES, 0) := by
  rw [find_nearest_stop_eq]
  norm_num [nearestStop, minFold, List.foldl_cons, List.foldl_nil, sqDist,
    MOREWOOD_FORBES, FIFTH_AIKEN, MURRAY_FORBES, PTC_TECH_DR, MILL_19,
    BAKERY_SQUARE]

/-- Scenario A resolved destination: the Fifth and Aiken query point. -/
theorem scenario_a_dest : find_nearest_stop sqDist 40.4520 (-79.9392) =
    some (FIFTH_AIKEN, 0) := by
  rw [find_nearest_stop_eq]
  norm_num [nearestStop, minFold, List.foldl_cons, List.foldl_nil, sqDist,
    MOREWOOD_FORBES, FIFTH_AIKEN, MURRAY_FORBES, PTC_TECH_DR, MILL_19,
    BAKERY_SQUARE]

/-- A zero-mile walk is floored to one minute. -/
theorem walking_zero : walking_minutes_heuristic (0 : ℚ) = 1 := by
  norm_num [walking_minutes_heuristic, pyRound]

/-- The in-vehicle estimate for the Morewood-Fifth hop under the witness
distance: floored to 3 minutes. -/
theorem scenario_a_in_vehicle : estimate_in_vehicle_minutes
    (span_miles sqDist [MOREWOOD_FORBES, FIFTH_AIKEN] 0 1) = 3 := by
  norm_num [estimate_in_vehicle_minutes, pyRound, span_miles, sqDist,
    List.range_succ, MOREWOOD_FORBES, FIFTH_AIKEN]

/-- The rounded mileage of that hop under the witness distance. -/
theorem scenario_a_miles : round2
    (span_miles sqDist [MOREWOOD_FORBES, FIFTH_AIKEN] 0 1) = 0 := by
  norm_num [round2, pyRound, span_miles, sqDist, List.range_succ,
    MOREWOOD_FORBES, FIFTH_AIKEN]

/-- The fully evaluated scenario A plan: Morewood to Fifth and Aiken on a
Monday at 10:00 with the witness distance and no estimators. -/
theorem scenario_a_plan_eq :
    plan_shuttle_trip sqDist noEst noEst (40.4449, -79.9429)
      (40.4520, -79.9392) ⟨600⟩ =
    some (.ok ("A/B/AB") ("Morewood & Forbes (Main Campus)")
      ("Fifth Ave & Aiken Ave (Shadyside)")
      [ .walk ("Origin") ("Morewood & Forbes (Main Campus)") 1,
        .wait ("Morewood & Forbes (Main Campus)") ("A/B/AB") 5,
        .shuttle ("A/B/AB") ("Morewood & Forbes (Main Campus)")
          ("Fifth Ave & Aiken Ave (Shadyside)") 3 0,
        .walk ("Fifth Ave & Aiken Ave (Shadyside)") ("Destination") 1 ]
      ⟨10, 2, 5, 3⟩ ⟨"10:06 AM", "10:10 AM"⟩ false) := by
  obtain ⟨wTo, wFrom, iv, ug, hplan, h1, h2, h3, h4⟩ :=
    plan_success_shape sqDist noEst noEst (40.4449, -79.9429)
      (40.4520, -79.9392) ⟨600⟩ MOREWOOD_FORBES 0 FIFTH_AIKEN 0
      ⟨"A/B/AB", [MOREWOOD_FORBES, FIFTH_AIKEN], 10, some 15,
        (⟨7, 0⟩, ⟨23, 30⟩), some (⟨10, 0⟩, ⟨23, 30⟩)⟩ 10
      (span_miles sqDist [MOREWOOD_FORBES, FIFTH_AIKEN] 0 1)
      scenario_a_origin scenario_a_dest (by rfl) (by decide) (by decide)
      (by rfl)
  have e1 : wTo = 1 := by rw [h1 rfl, walking_zero]
  have e2 : wFrom = 1 := by rw [h2 rfl, walking_zero]
  have e3 : iv = 3 := by rw [h3 rfl, scenario_a_in_vehicle]
  have e4 : ug = false := h4 rfl rfl rfl
  subst e1
  subst e2
  subst e3
  subst e4
  rw [hplan, scenario_a_miles]
  rfl

/-- Witness for C6 at a concrete successful plan: Morewood to Fifth and
Aiken on a Monday at 10:00, headway 10, wait 5. -/
theorem claim_wait_half_headway_witness :
    ∃ o oD d dD rt hw,
      find_nearest_stop sqDist 40.4449 (-79.9429) = some (o, oD) ∧
      find_nearest_stop sqDist 40.4520 (-79.9392) = some (d, dD) ∧
      find_route_connecting o d = some rt ∧ rt ∈ ROUTES ∧ "A/B/AB" = rt.name ∧
      headway_minutes rt ⟨600⟩ = some hw ∧
      (⟨10, 2, 5, 3⟩ : Totals).wait_minutes = max 1 (hw / 2) ∧
      (is_weekend ⟨600⟩ = true → rt.weekend_headway_min = some hw) ∧
      (is_weekend ⟨600⟩ = false → hw = rt.weekday_headway_min) :=
  claim_wait_half_headway sqDist noEst noEst (40.4449, -79.9429)
    (40.4520, -79.9392) ⟨600⟩ ("A/B/AB")
    ("Morewood & Forbes (Main Campus)") ("Fifth Ave & Aiken Ave (Shadyside)")
    [ .walk ("Origin") ("Morewood & Forbes (Main Campus)") 1,
      .wait ("Morewood & Forbes (Main Campus)") ("A/B/AB") 5,
      .shuttle ("A/B/AB") ("Morewood & Forbes (Main Campus)")
        ("Fifth Ave & Aiken Ave (Shadyside)") 3 0,
      .walk ("Fifth Ave & Aiken Ave (Shadyside)") ("Destination") 1 ]
    ⟨10, 2, 5, 3⟩ ⟨"10:06 AM", "10:10 AM"⟩ false scenario_a_plan_eq

end ShuttleRouting

namespace ShuttleRouting

/-- C2: every successful plan's total is the sum of its four step
durations, the board time string renders the query timestamp advanced by
walk-to plus wait minutes, the arrival string renders the board time
advanced by in-vehicle plus walk-from minutes, and both render through the
12-hour clock format with no leading zero on the hour. -/
theorem claim_totals_and_times (hav : ℚ → ℚ → ℚ → ℚ → ℚ)
    (wE dE : ℚ × ℚ → ℚ × ℚ → Option ℤ) (oc dc : ℚ × ℚ) (when : DateTime)
    (rn osn dsn : String) (steps : List Step) (totals : Totals)
    (times : Times) (ug : Bool)
    (h : plan_shuttle_trip hav wE dE oc dc when =
      some (.ok rn osn dsn steps totals times ug)) :
    ∃ wTo wAit iv wFrom miles,
      steps = [ .walk ("Origin") osn wTo, .wait osn rn wAit,
                .shuttle rn osn dsn iv miles,
                .walk dsn ("Destination") wFrom ] ∧
      totals.minutes = wTo + wAit + iv + wFrom ∧
      times.board_time = fmt (when.addMinutes (wTo + wAit)) ∧
      times.arrival_time =
        fmt ((when.addMinutes (wTo + wAit)).addMinutes (iv + wFrom)) ∧
      times.board_time.data.head? ≠ some '0' ∧
      times.arrival_time.data.head? ≠ some '0' := by
  have ho := find_nearest_stop_eq hav oc.1 oc.2
  have hd := find_nearest_stop_eq hav dc.1 dc.2
  rcases hrc : find_route_connecting (nearestStop hav oc.1 oc.2)
      (nearestStop hav dc.1 dc.2) with _ | rt
  · rw [plan_eq_of_noRoute hav wE dE oc dc when _ _ _ _ ho hd hrc] at h
    simp at h
  · cases hact : service_is_active rt when with
    | false =>
        rw [plan_eq_of_inactive hav wE dE oc dc when _ _ _ _ rt ho hd hrc
          hact] at h
        simp at h
    | true =>
        obtain ⟨hmem, hom, hdm⟩ := route_connects_props _ _ _ hrc
        obtain ⟨hw, hhw⟩ := headway_some_of_active rt hmem when hact
        obtain ⟨miles, hdist⟩ := dar_some_of_mem hav rt _ _ hom hdm
        obtain ⟨wTo, wFrom, iv, ug2, hplan, -, -, -, -⟩ :=
          plan_success_shape hav wE dE oc dc when _ _ _ _ rt hw miles
            ho hd hrc hact hhw hdist
        rw [hplan] at h
        simp only [Option.some.injEq, PlanResult.ok.injEq] at h
        obtain ⟨hn, ho2, hd2, hsteps, htot, htimes, hug⟩ := h
        refine ⟨wTo, max 1 (hw / 2), iv, wFrom, round2 miles,
          ?_, ?_, ?_, ?_, ?_, ?_⟩
        · rw [← hsteps, ho2, hd2, hn]
        · rw [← htot]
        · rw [← htimes]
        · rw [← htimes]
        · rw [← htimes]
          exact fmt_head?_ne _
        · rw [← htimes]
          exact fmt_head?_ne _

/-- Witness for C2 at the concrete scenario A plan. -/
theorem claim_totals_and_times_witness :
    ∃ wTo wAit iv wFrom miles,
      [ Step.walk ("Origin") ("Morewood & Forbes (Main Campus)") 1,
        Step.wait ("Morewood & Forbes (Main Campus)") ("A/B/AB") 5,
        Step.shuttle ("A/B/AB") ("Morewood & Forbes (Main Campus)")
          ("Fifth Ave & Aiken Ave (Shadyside)") 3 0,
        Step.walk ("Fifth Ave & Aiken Ave (Shadyside)") ("Destination") 1 ] =
      [ Step.walk ("Origin") ("Morewood & Forbes (Main Campus)") wTo,
        Step.wait ("Morewood & Forbes (Main Campus)") ("A/B/AB") wAit,
        Step.shuttle ("A/B/AB") ("Morewood & Forbes (Main Campus)")
          ("Fifth Ave & Aiken Ave (Shadyside)") iv miles,
        Step.walk ("Fifth Ave & Aiken Ave (Shadyside)") ("Destination")
          wFrom ] ∧
      (⟨10, 2, 5, 3⟩ : Totals).minutes = wTo + wAit + iv + wFrom ∧
      (⟨"10:06 AM", "10:10 AM"⟩ : Times).board_time =
        fmt (DateTime.addMinutes ⟨600⟩ (wTo + wAit)) ∧
      (⟨"10:06 AM", "10:10 AM"⟩ : Times).arrival_time =
        fmt ((DateTime.addMinutes ⟨600⟩ (wTo + wAit)).addMinutes
          (iv + wFrom)) ∧
      (⟨"10:06 AM", "10:10 AM"⟩ : Times).board_time.data.head? ≠ some '0' ∧
      (⟨"10:06 AM", "10:10 AM"⟩ : Times).arrival_time.data.head? ≠
        some '0' :=
  claim_totals_and_times sqDist noEst noEst (40.4449, -79.9429)
    (40.4520, -79.9392) ⟨600⟩ ("A/B/AB")
    ("Morewood & Forbes (Main Campus)") ("Fifth Ave & Aiken Ave (Shadyside)")
    [ .walk ("Origin") ("Morewood & Forbes (Main Campus)") 1,
      .wait ("Morewood & Forbes (Main Campus)") ("A/B/AB") 5,
      .shuttle ("A/B/AB") ("Morewood & Forbes (Main Campus)")
        ("Fifth Ave & Aiken Ave (Shadyside)") 3 0,
      .walk ("Fifth Ave & Aiken Ave (Shadyside)") ("Destination") 1 ]
    ⟨10, 2, 5, 3⟩ ⟨"10:06 AM", "10:10 AM"⟩ false scenario_a_plan_eq

end ShuttleRouting

namespace ShuttleRouting

/-- C7: at any Saturday 2:00 PM, with no external estimator and any
distance function that is zero from each query point to its own stop and
positive to every other stop (as the haversine is, the query points being
exactly the Mill 19 and Morewood coordinates), the plan succeeds on the
"PTC & Mill 19" route, whose weekend window 10:00-18:00 is judged active
and whose weekend headway 45 yields a 22 minute wait. -/
theorem claim_scenario_c (hav : ℚ → ℚ → ℚ → ℚ → ℚ) (dt : DateTime)
    (hwd : dt.weekday = 5) (hh : dt.hour = 14) (hm : dt.minute = 0)
    (h0o : hav 40.4288 (-79.9465) MILL_19.lat MILL_19.lon = 0)
    (h0d : hav 40.4449 (-79.9429) MOREWOOD_FORBES.lat MOREWOOD_FORBES.lon = 0)
    (hpos : ∀ s ∈ [MOREWOOD_FORBES, FIFTH_AIKEN, MURRAY_FORBES, PTC_TECH_DR,
      BAKERY_SQUARE], 0 < hav 40.4288 (-79.9465) s.lat s.lon)
    (hpos2 : ∀ s ∈ [FIFTH_AIKEN, MURRAY_FORBES, PTC_TECH_DR, MILL_19,
      BAKERY_SQUARE], 0 < hav 40.4449 (-79.9429) s.lat s.lon) :
    ∃ rt steps totals times,
      find_route_connecting MILL_19 MOREWOOD_FORBES = some rt ∧
      rt.name = "PTC & Mill 19" ∧
      rt.service_span_weekend = some (⟨10, 0⟩, ⟨18, 0⟩) ∧
      service_is_active rt dt = true ∧
      headway_minutes rt dt = some 45 ∧
      plan_shuttle_trip hav noEst noEst (40.4288, -79.9465)
        (40.4449, -79.9429) dt =
        some (.ok rt.name MILL_19.name MOREWOOD_FORBES.name steps totals
          times false) ∧
      totals.wait_minutes = 22 := by
  have hno : nearestStop hav 40.4288 (-79.9465) = MILL_19 := by
    have hmem := minFold_mem (fun s => hav 40.4288 (-79.9465) s.lat s.lon)
      [FIFTH_AIKEN, MURRAY_FORBES, PTC_TECH_DR, MILL_19, BAKERY_SQUARE]
      MOREWOOD_FORBES
    have hle := minFold_le (fun s => hav 40.4288 (-79.9465) s.lat s.lon)
      [FIFTH_AIKEN, MURRAY_FORBES, PTC_TECH_DR, MILL_19, BAKERY_SQUARE]
      MOREWOOD_FORBES MILL_19 (by simp)
    simp only at hle
    rw [h0o] at hle
    rw [nearestStop]
    simp only [List.mem_cons, List.not_mem_nil, or_false] at hmem
    rcases hmem with h | h | h | h | h | h
    · rw [h] at hle ⊢
      exact absurd hle (not_le.mpr (hpos MOREWOOD_FORBES (by simp)))
    · rw [h] at hle ⊢
      exact absurd hle (not_le.mpr (hpos FIFTH_AIKEN (by simp)))
    · rw [h] at hle ⊢
      exact absurd hle (not_le.mpr (hpos MURRAY_FORBES (by simp)))
    · rw [h] at hle ⊢
      exact absurd hle (not_le.mpr (hpos PTC_TECH_DR (by simp)))
    · exact h
    · rw [h] at hle ⊢
      exact absurd hle (not_le.mpr (hpos BAKERY_SQUARE (by simp)))
  have hnd : nearestStop hav 40.4449 (-79.9429) = MOREWOOD_FORBES := by
    have hmem := minFold_mem (fun s => hav 40.4449 (-79.9429) s.lat s.lon)
      [FIFTH_AIKEN, MURRAY_FORBES, PTC_TECH_DR, MILL_19, BAKERY_SQUARE]
      MOREWOOD_FORBES
    have hle := minFold_le (fun s => hav 40.4449 (-79.9429) s.lat s.lon)
      [FIFTH_AIKEN, MURRAY_FORBES, PTC_TECH_DR, MILL_19, BAKERY_SQUARE]
      MOREWOOD_FORBES MOREWOOD_FORBES (by simp)
    simp only at hle
    rw [h0d] at hle
    rw [nearestStop]
    simp only [List.mem_cons, List.not_mem_nil, or_false] at hmem
    rcases hmem with h | h | h | h | h | h
    · exact h
    · rw [h] at hle ⊢
      exact absurd hle (not_le.mpr (hpos2 FIFTH_AIKEN (by simp)))
    · rw [h] at hle ⊢
      exact absurd hle (not_le.mpr (hpos2 MURRAY_FORBES (by simp)))
    · rw [h] at hle ⊢
      exact absurd hle (not_le.mpr (hpos2 PTC_TECH_DR (by simp)))
    · rw [h] at hle ⊢
      exact absurd hle (not_le.mpr (hpos2 MILL_19 (by simp)))
    · rw [h] at hle ⊢
      exact absurd hle (not_le.mpr (hpos2 BAKERY_SQUARE (by simp)))
  have ho : find_nearest_stop hav 40.4288 (-79.9465) =
      some (MILL_19, hav 40.4288 (-79.9465) MILL_19.lat MILL_19.lon) := by
    rw [find_nearest_stop_eq, hno]
  have hd : find_nearest_stop hav 40.4449 (-79.9429) =
      some (MOREWOOD_FORBES,
        hav 40.4449 (-79.9429) MOREWOOD_FORBES.lat MOREWOOD_FORBES.lon) := by
    rw [find_nearest_stop_eq, hnd]
  have hrc : find_route_connecting MILL_19 MOREWOOD_FORBES =
      some ⟨"PTC & Mill 19", [MOREWOOD_FORBES, PTC_TECH_DR, MILL_19], 30,
        some 45, (⟨7, 0⟩, ⟨20, 0⟩), some (⟨10, 0⟩, ⟨18, 0⟩)⟩ := by rfl
  have hact : service_is_active ⟨"PTC & Mill 19",
      [MOREWOOD_FORBES, PTC_TECH_DR, MILL_19], 30, some 45,
      (⟨7, 0⟩, ⟨20, 0⟩), some (⟨10, 0⟩, ⟨18, 0⟩)⟩ dt = true := by
    rw [service_is_active]
    simp [is_weekend, hwd, minutes_since_midnight, hh, hm]
  have hhw : headway_minutes ⟨"PTC & Mill 19",
      [MOREWOOD_FORBES, PTC_TECH_DR, MILL_19], 30, some 45,
      (⟨7, 0⟩, ⟨20, 0⟩), some (⟨10, 0⟩, ⟨18, 0⟩)⟩ dt = some 45 := by
    rw [headway_minutes]
    simp [is_weekend, hwd]
  have hdist : distance_along_route hav ⟨"PTC & Mill 19",
      [MOREWOOD_FORBES, PTC_TECH_DR, MILL_19], 30, some 45,
      (⟨7, 0⟩, ⟨20, 0⟩), some (⟨10, 0⟩, ⟨18, 0⟩)⟩ MILL_19 MOREWOOD_FORBES =
      some (span_miles hav [MOREWOOD_FORBES, PTC_TECH_DR, MILL_19] 0 2) := by
    rfl
  obtain ⟨wTo, wFrom, iv, ug, hplan, -, -, -, h4⟩ :=
    plan_success_shape hav noEst noEst (40.4288, -79.9465)
      (40.4449, -79.9429) dt MILL_19 _ MOREWOOD_FORBES _
      ⟨"PTC & Mill 19", [MOREWOOD_FORBES, PTC_TECH_DR, MILL_19], 30,
        some 45, (⟨7, 0⟩, ⟨20, 0⟩), some (⟨10, 0⟩, ⟨18, 0⟩)⟩ 45
      (span_miles hav [MOREWOOD_FORBES, PTC_TECH_DR, MILL_19] 0 2)
      ho hd hrc hact hhw hdist
  have e4 : ug = false := h4 rfl rfl rfl
  subst e4
  refine ⟨_, _, _, _, hrc, rfl, rfl, hact, hhw, hplan, ?_⟩
  show max 1 ((45 : ℤ) / 2) = 22
  norm_num

/-- Witness for C7: the concrete Saturday 2:00 PM timestamp 8040 minutes
into the model week, with the squared-euclidean witness distance, which is
zero at each query point's own stop and positive at the others. -/
theorem claim_scenario_c_witness :
    ∃ rt steps totals times,
      find_route_connecting MILL_19 MOREWOOD_FORBES = some rt ∧
      rt.name = "PTC & Mill 19" ∧
      rt.service_span_weekend = some (⟨10, 0⟩, ⟨18, 0⟩) ∧
      service_is_active rt ⟨8040⟩ = true ∧
      headway_minutes rt ⟨8040⟩ = some 45 ∧
      plan_shuttle_trip sqDist noEst noEst (40.4288, -79.9465)
        (40.4449, -79.9429) ⟨8040⟩ =
        some (.ok rt.name MILL_19.name MOREWOOD_FORBES.name steps totals
          times false) ∧
      totals.wait_minutes = 22 :=
  claim_scenario_c sqDist ⟨8040⟩ (by decide) (by decide) (by decide)
    (by norm_num [sqDist, MILL_19])
    (by norm_num [sqDist, MOREWOOD_FORBES])
    (by
      intro s hs
      fin_cases hs <;>
        norm_num [sqDist, MOREWOOD_FORBES, FIFTH_AIKEN, MURRAY_FORBES,
          PTC_TECH_DR, MILL_19, BAKERY_SQUARE])
    (by
      intro s hs
      fin_cases hs <;>
        norm_num [sqDist, MOREWOOD_FORBES, FIFTH_AIKEN, MURRAY_FORBES,
          PTC_TECH_DR, MILL_19, BAKERY_SQUARE])

end ShuttleRouting
